import Mathlib

/-!
Verification of the otel-helpers repository: a shallow embedding of the
telemetry helper library (`telemetry/telemetry.go`, `telemetry/logging.go`)
and the demo `/soma` HTTP handler (`main.go`), with theorems settling the
specification claims about them.

External SDK primitives (the OpenTelemetry span API, `slog` sinks, the file
system, the outbound HTTP transport) are modelled as explicit inputs or as
free syntax; the repository's own control flow is translated function by
function from the Go source.
-/

namespace OtelHelpers

/-! ## Span model (go.opentelemetry.io/otel/trace, as consumed by the repo)

A `SpanContext` carries a 16-byte trace id, an 8-byte span id and trace
flags; `IsValid` in the SDK means both identifiers are non-zero.  A `Span`
as observed through `trace.SpanFromContext` is either a recording span with
its context, or the no-op span (not recording, invalid context) when the
context carries none. -/

/-- One hexadecimal digit, lower case, as produced by Go's `hex.Encode`. -/
def hexDigit (n : Nat) : Char :=
  if n < 10 then Char.ofNat (48 + n) else Char.ofNat (87 + n)

/-- Two-digit lower-case hex rendering of one byte. -/
def byteToHex (b : Nat) : String :=
  String.mk [hexDigit (b / 16 % 16), hexDigit (b % 16)]

/-- Lower-case hex rendering of a byte sequence: `TraceID.String` /
`SpanID.String` in the SDK. -/
def bytesToHex (bs : List Nat) : String :=
  String.join (bs.map byteToHex)

/-- An OpenTelemetry span context: trace id (16 bytes), span id (8 bytes)
and trace flags (`FlagsSampled` is bit 0). -/
structure SpanContext where
  traceID : List Nat
  spanID : List Nat
  traceFlags : Nat
  deriving DecidableEq, Repr

/-- `SpanContext.IsValid`: both identifiers differ from the all-zero id. -/
def SpanContext.isValid (sc : SpanContext) : Bool :=
  decide (sc.traceID ≠ List.replicate 16 0) && decide (sc.spanID ≠ List.replicate 8 0)

/-- `TraceFlags.IsSampled`: bit 0 of the flags byte. -/
def SpanContext.isSampled (sc : SpanContext) : Bool :=
  sc.traceFlags % 2 == 1

/-- A span as observed by the repository: whether it is recording, and its
span context. -/
structure Span where
  recording : Bool
  spanCtx : SpanContext
  deriving DecidableEq, Repr

/-- The no-op span returned by `trace.SpanFromContext` when the context
holds no span: not recording, all-zero (invalid) identifiers. -/
def noopSpan : Span :=
  { recording := false
    spanCtx := { traceID := List.replicate 16 0, spanID := List.replicate 8 0, traceFlags := 0 } }

/-- A request context, as far as the repository reads it: it may carry a
span. -/
def Ctx : Type := Option Span

/-- `trace.SpanFromContext`: the span stored in the context, or the no-op
span. -/
def spanFromContext : Ctx → Span
  | none => noopSpan
  | some s => s

/-! ## slog records and the CorrelatedHandler (telemetry/telemetry.go 202-248,
telemetry/logging.go 11-52) -/

/-- A value attached to a log attribute, covering the kinds the repository
produces (`slog.String`, `slog.Bool`, integers for status codes and
durations). -/
inductive LogValue where
  | str (s : String)
  | int (n : Int)
  | bool (b : Bool)
  deriving DecidableEq, Repr

/-- A `slog.Attr`: key plus value. -/
structure LogAttr where
  key : String
  value : LogValue
  deriving DecidableEq, Repr

/-- A `slog.Record`: level, message and attribute list (attributes in the
order they were added). -/
structure Record where
  level : Int
  msg : String
  attrs : List LogAttr
  deriving DecidableEq, Repr

/-- `Record.AddAttrs`: appends attributes to the record. -/
def Record.addAttrs (r : Record) (new : List LogAttr) : Record :=
  { r with attrs := r.attrs ++ new }

/-- `CorrelatedHandler.Handle`, the record-transformation part: inspect the
span in the context; when it is recording and its span context is valid,
add `trace_id` and `span_id`, then `trace_sampled: true` when sampled;
otherwise leave the record alone.  Translated from
`telemetry/telemetry.go` lines 213-230. -/
def correlateRecord (ctx : Ctx) (record : Record) : Record :=
  let span := spanFromContext ctx
  if span.recording then
    let spanContext := span.spanCtx
    if spanContext.isValid then
      let record := record.addAttrs
        [⟨"trace_id", .str (bytesToHex spanContext.traceID)⟩,
         ⟨"span_id", .str (bytesToHex spanContext.spanID)⟩]
      if spanContext.isSampled then
        record.addAttrs [⟨"trace_sampled", .bool true⟩]
      else record
    else record
  else record

/-- A structured-log handler.  The inner sink is arbitrary (any
`slog.Handler`), so handlers derived from it by `WithAttrs` / `WithGroup`
are kept as free syntax; `correlated` is the repository's decorator. -/
inductive Handler where
  | base (id : Nat)
  | withAttrs (h : Handler) (attrs : List LogAttr)
  | withGroup (h : Handler) (name : String)
  | correlated (inner : Handler)
  deriving DecidableEq, Repr

/-- `WithAttrs` method dispatch: on a `CorrelatedHandler` it re-wraps the
derived inner handler (`telemetry/telemetry.go` 241-243); on any other
handler it yields that handler's own derived handler (free syntax). -/
def Handler.withAttrsOp : Handler → List LogAttr → Handler
  | .correlated inner, attrs => .correlated (inner.withAttrsOp attrs)
  | h, attrs => .withAttrs h attrs

/-- `WithGroup` method dispatch: on a `CorrelatedHandler` it re-wraps the
derived inner handler (`telemetry/telemetry.go` 246-248); on any other
handler it yields that handler's own derived handler (free syntax). -/
def Handler.withGroupOp : Handler → String → Handler
  | .correlated inner, name => .correlated (inner.withGroupOp name)
  | h, name => .withGroup h name

/-- `Handle` method dispatch: a `CorrelatedHandler` augments the record and
delegates to its inner handler (`telemetry/telemetry.go` 213-233); any
other handler consumes the record, and we observe which sink received
which record. -/
def Handler.handle : Handler → Ctx → Record → Handler × Record
  | .correlated inner, ctx, r => inner.handle ctx (correlateRecord ctx r)
  | h, _, r => (h, r)

/-- Is this handler the repository's correlating decorator? -/
def Handler.isCorrelated : Handler → Bool
  | .correlated _ => true
  | _ => false

/-- One structured-logger derivation step. -/
inductive DeriveOp where
  | addAttrs (attrs : List LogAttr)
  | group (name : String)
  deriving DecidableEq, Repr

/-- Apply one derivation step through the handler's method dispatch. -/
def applyOp (h : Handler) : DeriveOp → Handler
  | .addAttrs attrs => h.withAttrsOp attrs
  | .group name => h.withGroupOp name

/-- Apply a sequence of derivation steps. -/
def applyOps (h : Handler) (ops : List DeriveOp) : Handler :=
  ops.foldl applyOp h

/-! ## TelemetryClient convenience operations
(telemetry/telemetry.go 251-317, telemetry/logging.go 55-72)

These methods touch two effectful surfaces: the active span and the logger.
We model each call as the ordered list of effects it performs. -/

/-- `slog.LevelInfo`. -/
def levelInfo : Int := 0
/-- `slog.LevelWarn`. -/
def levelWarn : Int := 4
/-- `slog.LevelError`. -/
def levelError : Int := 8

/-- A Go `any` value as passed in the repository's variadic log-attribute
lists: a string, an `int`, an `int64`, a `float64` (modelled by `ℚ`), a
`bool`, or some other type carried with its `fmt.Sprintf` percent-v
rendering. -/
inductive GoValue where
  | str (s : String)
  | int (n : Int)
  | int64 (n : Int)
  | float64 (q : ℚ)
  | bool (b : Bool)
  | other (rendering : String)
  deriving DecidableEq, Repr

/-- An OpenTelemetry span attribute value, by the constructor used
(`attribute.String` / `Int` / `Int64` / `Float64` / `Bool`). -/
inductive SpanAttrVal where
  | str (s : String)
  | int (n : Int)
  | int64 (n : Int)
  | float64 (q : ℚ)
  | bool (b : Bool)
  deriving DecidableEq, Repr

/-- One effect performed by a TelemetryClient logging method, in order. -/
inductive LogEffect where
  | spanRecordError (err : String)
  | spanSetAttributes (attrs : List (String × SpanAttrVal))
  | emit (level : Int) (msg : String) (args : List (String × GoValue))
  deriving DecidableEq, Repr

/-- `TelemetryClient.LogError` (`telemetry/telemetry.go` 256-264): record
the error on the span when it is recording, then log at error level with
the error's description prepended under the key `error`. -/
def logError (ctx : Ctx) (err : String) (msg : String)
    (args : List (String × GoValue)) : List LogEffect :=
  let span := spanFromContext ctx
  (if span.recording then [.spanRecordError err] else [])
    ++ [.emit levelError msg (("error", .str err) :: args)]

/-- `TelemetryClient.LogHTTPRequest` (`telemetry/logging.go` 55-72,
duplicated in `telemetry/telemetry.go` 265-282): one log record with fixed
leading fields; level starts at info, becomes warn at status ≥ 400 and
error at status ≥ 500.  `durationNs` is the `time.Duration` in
nanoseconds; `Milliseconds` is truncating integer division by 10^6. -/
def logHTTPRequest (method path : String) (statusCode : Int) (durationNs : Int)
    (args : List (String × GoValue)) : List LogEffect :=
  let allArgs : List (String × GoValue) :=
    [("http_method", .str method),
     ("http_path", .str path),
     ("http_status_code", .int statusCode),
     ("duration_ms", .int64 (Int.tdiv durationNs 1000000))] ++ args
  let level := levelInfo
  let level := if statusCode ≥ 400 then levelWarn else level
  let level := if statusCode ≥ 500 then levelError else level
  [.emit level "HTTP request completed" allArgs]

/-- The type switch of `LogWithSpanAttributes` (`telemetry/telemetry.go`
296-309): dispatch a value to the nearest span-attribute constructor,
falling back to the value's string rendering. -/
def toSpanAttr (key : String) (value : GoValue) : String × SpanAttrVal :=
  match value with
  | .str v => (key, .str v)
  | .int v => (key, .int v)
  | .int64 v => (key, .int64 v)
  | .float64 v => (key, .float64 v)
  | .bool v => (key, .bool v)
  | .other rendering => (key, .str rendering)

/-- `TelemetryClient.LogWithSpanAttributes` (`telemetry/telemetry.go`
285-317): walk the attribute pairs accumulating log args and converted
span attributes; set the span attributes when the span is recording; then
log the message with all pairs.  The Go map is modelled as the association
list in its iteration order. -/
def logWithSpanAttributes (ctx : Ctx) (level : Int) (msg : String)
    (attrs : List (String × GoValue)) : List LogEffect :=
  let span := spanFromContext ctx
  let acc := attrs.foldl
    (fun (acc : List (String × GoValue) × List (String × SpanAttrVal)) kv =>
      (acc.1 ++ [kv], acc.2 ++ [toSpanAttr kv.1 kv.2]))
    ([], [])
  (if span.recording then [.spanSetAttributes acc.2] else [])
    ++ [.emit level msg acc.1]

/-! ## HTTPMetrics (telemetry/telemetry.go 108-169) -/

/-- The observable state of the three instruments owned by `HTTPMetrics`:
each update appended with its attribute set (an increment for the
counters, a sample in seconds for the histogram). -/
structure MetricsState where
  requestsTotal : List (List (String × String) × Int)
  requestDuration : List (List (String × String) × ℚ)
  errorsTotal : List (List (String × String) × Int)
  deriving DecidableEq, Repr

/-- `time.Duration.Seconds`: nanoseconds to (exact) seconds. -/
def durationSeconds (durationNs : Int) : ℚ :=
  (durationNs : ℚ) / 1000000000

/-- `HTTPMetrics.RecordRequest` (`telemetry/telemetry.go` 152-161): add 1
to the request counter and record the duration in seconds into the
histogram, both under `{method, endpoint, status_code}`. -/
def recordRequest (s : MetricsState) (method endpoint statusCode : String)
    (durationNs : Int) : MetricsState :=
  let attrs := [("method", method), ("endpoint", endpoint), ("status_code", statusCode)]
  { s with
    requestsTotal := s.requestsTotal ++ [(attrs, 1)]
    requestDuration := s.requestDuration ++ [(attrs, durationSeconds durationNs)] }

/-- `HTTPMetrics.RecordError` (`telemetry/telemetry.go` 164-169): add 1 to
the error counter under `{error_type, endpoint}`. -/
def recordError (s : MetricsState) (errorType endpoint : String) : MetricsState :=
  { s with errorsTotal := s.errorsTotal ++ [([("error_type", errorType), ("endpoint", endpoint)], 1)] }

/-! ## The /soma demo handler (main.go 39-123, metrics-enabled revision)

The handler's external inputs — the results of `strconv.ParseFloat` on the
two query parameters and the outcome of `client.Do` — are passed in
explicitly; the body is the ordered trace of the effects the handler
performs, which is everything the claims about it inspect. -/

/-- The downstream response as the handler consumes it: the status line
string it logs and the full body it copies out. -/
structure DownResp where
  status : String
  body : String
  deriving DecidableEq, Repr

/-- One effect of the `/soma` handler, in program order. -/
inductive SomaEvent where
  | requestCount (method endpoint : String)
  | spanRecordError (err : String)
  | log (level : Int) (msg : String)
  | errorCount (errorType endpoint : String)
  | durationRecord (method endpoint status : String)
  | spanSetParams (a b : ℚ)
  | injectHeaders
  | externalCallCount (targetService endpoint : String)
  | doCall
  | respond (status : Nat) (body : String)
  deriving DecidableEq, Repr

/-- The `/soma` handler (`main.go` 39-123): count the request; on a parse
failure of either parameter record the error, log, count the error, record
a 400 duration and answer 400;  otherwise attach the parameters to the
span, inject trace headers, count and issue the outbound call; on
transport failure record the error, count it, record a 500 duration,
answer 500 and log; on any response log success, record a 200 duration and
answer 200 with the downstream body appended to the fixed prefix. -/
def somaHandler (method : String) (pa pb : Option ℚ)
    (callResult : Except String DownResp) : List SomaEvent :=
  [SomaEvent.requestCount method "/soma"] ++
  match pa, pb with
  | some a, some b =>
    [SomaEvent.spanSetParams a b, SomaEvent.injectHeaders,
     SomaEvent.externalCallCount "calc-service" "/calc", SomaEvent.doCall] ++
    (match callResult with
     | .error e =>
       [SomaEvent.spanRecordError e,
        SomaEvent.errorCount "external_service_error" "/soma",
        SomaEvent.durationRecord method "/soma" "500",
        SomaEvent.respond 500 "erro ao chamar serviço 2",
        SomaEvent.log levelError "erro ao chamar o serviço 2"]
     | .ok resp =>
       [SomaEvent.log levelInfo "chamada para o serviço 2 realizada com sucesso",
        SomaEvent.durationRecord method "/soma" "200",
        SomaEvent.respond 200 ("Resultado do serviço2: " ++ resp.body)])
  | _, _ =>
    [SomaEvent.spanRecordError "parâmetros inválidos",
     SomaEvent.log levelError "parâmetros inválidos",
     SomaEvent.errorCount "invalid_parameters" "/soma",
     SomaEvent.durationRecord method "/soma" "400",
     SomaEvent.respond 400 "Parâmetros inválidos. Use /soma?a=1&b=2"]

/-- The status and body of the response the handler wrote (the first and
only `respond` event). -/
def respondedWith (events : List SomaEvent) : Option (Nat × String) :=
  events.findSome? fun e =>
    match e with
    | .respond s b => some (s, b)
    | _ => none

/-- All error-counter increments in a handler trace, as
`(error_type, endpoint)` pairs in order. -/
def errorCounts (events : List SomaEvent) : List (String × String) :=
  events.filterMap fun e =>
    match e with
    | .errorCount t ep => some (t, ep)
    | _ => none

/-- Number of outbound transport attempts in a handler trace. -/
def doCallCount (events : List SomaEvent) : Nat :=
  events.countP fun e => e == SomaEvent.doCall

/-! ## SetupWithConfig (telemetry/telemetry.go 41-78)

The process environment is an association list; `os.Setenv` overwrites.
The config file's contents (or `none` for a read failure) are an explicit
input; the trace of steps records reads, environment writes, the
`os.ExpandEnv` expansion and the YAML parse, in program order. -/

/-- The `Config` struct (`telemetry/telemetry.go` 19-25), attributes as an
association list in iteration order. -/
structure GoConfig where
  configPath : String
  serviceName : String
  serviceVersion : String
  environment : String
  attributes : List (String × String)
  deriving DecidableEq, Repr

/-- `os.Setenv` on an association-list environment: overwrite the key. -/
def setEnv (env : List (String × String)) (key value : String) : List (String × String) :=
  env.filter (fun kv => kv.1 ≠ key) ++ [(key, value)]

/-- One step of `SetupWithConfig`, in program order. -/
inductive SetupEvent where
  | readFileOk (path : String)
  | readFileFailed (path : String)
  | setEnvVar (key value : String)
  | expandEnv
  | parseYAML
  deriving DecidableEq, Repr

/-- `os.Setenv` together with its trace entry. -/
def applySetEnv (s : List (String × String) × List SetupEvent)
    (key value : String) : List (String × String) × List SetupEvent :=
  (setEnv s.1 key value, s.2 ++ [.setEnvVar key value])

/-- The environment overrides `SetupWithConfig` publishes, in program
order (`telemetry/telemetry.go` 47-61): each of `SERVICE_NAME`,
`SERVICE_VERSION`, `ENVIRONMENT` when the corresponding field is
non-empty, then every extra attribute in iteration order. -/
def overridePairs (config : GoConfig) : List (String × String) :=
  (if config.serviceName ≠ "" then [("SERVICE_NAME", config.serviceName)] else [])
  ++ (if config.serviceVersion ≠ "" then [("SERVICE_VERSION", config.serviceVersion)] else [])
  ++ (if config.environment ≠ "" then [("ENVIRONMENT", config.environment)] else [])
  ++ config.attributes

/-- `SetupWithConfig` (`telemetry/telemetry.go` 41-78), up to handing the
expanded bytes to the external YAML parser: read the file (failing fast on
a read error), publish the non-empty overrides and all extra attributes as
environment variables via `os.Setenv` in program order, then expand
placeholders and parse.  Returns the final environment, the step trace,
and whether it failed. -/
def setupWithConfig (config : GoConfig) (fileContents : Option String)
    (env : List (String × String)) :
    List (String × String) × List SetupEvent × Bool :=
  match fileContents with
  | none => (env, [.readFileFailed config.configPath], true)
  | some _b =>
    let s := (overridePairs config).foldl (fun t kv => applySetEnv t kv.1 kv.2)
      (env, [.readFileOk config.configPath])
    (s.1, s.2 ++ [.expandEnv, .parseYAML], false)

/-! ## Theorems -/

/-- C1: `CorrelatedHandler.Handle` delegates to the wrapped handler after
transforming the record; when the span in the context is recording and its
span context is valid, the transformation appends exactly `trace_id` and
`span_id` (hex strings of the identifiers) followed by `trace_sampled:
true` exactly when the sampled flag is set; in every other case the record
reaches the wrapped handler unmodified. -/
theorem correlatedHandler_handle_spec (ctx : Ctx) (r : Record) (inner : Handler) :
    Handler.handle (.correlated inner) ctx r = inner.handle ctx (correlateRecord ctx r)
    ∧ (((spanFromContext ctx).recording = true
          ∧ (spanFromContext ctx).spanCtx.isValid = true) →
        correlateRecord ctx r =
          { r with attrs := r.attrs ++
              [⟨"trace_id", .str (bytesToHex (spanFromContext ctx).spanCtx.traceID)⟩,
               ⟨"span_id", .str (bytesToHex (spanFromContext ctx).spanCtx.spanID)⟩] ++
              (if (spanFromContext ctx).spanCtx.isSampled
               then [⟨"trace_sampled", .bool true⟩] else []) })
    ∧ (¬((spanFromContext ctx).recording = true
          ∧ (spanFromContext ctx).spanCtx.isValid = true) →
        correlateRecord ctx r = r) := by
  refine ⟨rfl, ?_, ?_⟩
  · rintro ⟨hrec, hval⟩
    simp only [correlateRecord, Record.addAttrs, hrec, hval, if_true]
    cases hsamp : (spanFromContext ctx).spanCtx.isSampled <;>
      simp [hsamp, List.append_assoc]
  · intro hnot
    simp only [correlateRecord, Record.addAttrs]
    cases hrec : (spanFromContext ctx).recording with
    | false => simp
    | true =>
      cases hval : (spanFromContext ctx).spanCtx.isValid with
      | false => simp [hval]
      | true => exact absurd ⟨hrec, hval⟩ hnot

/-- Witness for C1 at a concrete recording span with valid, sampled
identifiers. -/
theorem correlatedHandler_handle_spec_witness :
    ((spanFromContext (some ⟨true, ⟨List.replicate 16 1, List.replicate 8 1, 1⟩⟩)).recording = true
      ∧ (spanFromContext (some ⟨true, ⟨List.replicate 16 1, List.replicate 8 1, 1⟩⟩)).spanCtx.isValid = true)
    ∧ correlateRecord (some ⟨true, ⟨List.replicate 16 1, List.replicate 8 1, 1⟩⟩) ⟨8, "boom", []⟩
      = ⟨8, "boom",
          [⟨"trace_id", .str "01010101010101010101010101010101"⟩,
           ⟨"span_id", .str "0101010101010101"⟩,
           ⟨"trace_sampled", .bool true⟩]⟩ := by
  refine ⟨by decide, ?_⟩
  rw [(correlatedHandler_handle_spec
        (some ⟨true, ⟨List.replicate 16 1, List.replicate 8 1, 1⟩⟩)
        ⟨8, "boom", []⟩ (Handler.base 0)).2.1 (by decide)]
  rfl

/-- Derivation steps commute with the correlating decorator, one step. -/
theorem applyOp_correlated (h : Handler) (op : DeriveOp) :
    applyOp (.correlated h) op = .correlated (applyOp h op) := by
  cases op <;> rfl

/-- Derivation steps commute with the correlating decorator, any
sequence. -/
theorem applyOps_correlated (h : Handler) (ops : List DeriveOp) :
    applyOps (.correlated h) ops = .correlated (applyOps h ops) := by
  induction ops generalizing h with
  | nil => rfl
  | cons op tl ih =>
    show applyOps (applyOp (.correlated h) op) tl = _
    rw [applyOp_correlated]
    exact ih (applyOp h op)

/-- C2: `WithAttrs` and `WithGroup` on a `CorrelatedHandler` re-wrap the
derived inner handler, so any sequence of derivation operations applied to
a correlated handler yields a correlated handler over the correspondingly
derived inner handler, whose `Handle` still correlates the record before
delegating. -/
theorem correlatedHandler_derivation_spec (inner : Handler) (ops : List DeriveOp) :
    (∀ attrs, Handler.withAttrsOp (.correlated inner) attrs
        = .correlated (inner.withAttrsOp attrs))
    ∧ (∀ g, Handler.withGroupOp (.correlated inner) g
        = .correlated (inner.withGroupOp g))
    ∧ applyOps (.correlated inner) ops = .correlated (applyOps inner ops)
    ∧ ∀ ctx r, Handler.handle (applyOps (.correlated inner) ops) ctx r
        = Handler.handle (applyOps inner ops) ctx (correlateRecord ctx r) := by
  refine ⟨fun _ => rfl, fun _ => rfl, applyOps_correlated inner ops, fun ctx r => ?_⟩
  rw [applyOps_correlated]
  rfl

/-- C3: `LogError` records the error on the span exactly when the span is
recording, and in all cases then emits one error-level record whose
attribute list starts with the error's description under the key
`error`. -/
theorem logError_spec (ctx : Ctx) (err msg : String) (args : List (String × GoValue)) :
    ((spanFromContext ctx).recording = true →
      logError ctx err msg args
        = [.spanRecordError err,
           .emit levelError msg (("error", .str err) :: args)])
    ∧ ((spanFromContext ctx).recording = false →
      logError ctx err msg args
        = [.emit levelError msg (("error", .str err) :: args)]) := by
  constructor <;> intro h <;> simp [logError, h]

/-- Witness for C3: a recording span and the span-less context. -/
theorem logError_spec_witness :
    logError (some ⟨true, ⟨List.replicate 16 1, List.replicate 8 1, 1⟩⟩) "e" "m" []
      = [.spanRecordError "e", .emit levelError "m" [("error", .str "e")]]
    ∧ logError none "e" "m" []
      = [.emit levelError "m" [("error", .str "e")]] :=
  ⟨(logError_spec (some ⟨true, ⟨List.replicate 16 1, List.replicate 8 1, 1⟩⟩) "e" "m" []).1 rfl,
   (logError_spec none "e" "m" []).2 rfl⟩

/-- C4: `LogHTTPRequest` emits exactly one record, `HTTP request
completed`, whose level is info below status 400, warn in 400-499 and
error from 500 on, and whose attributes are the four fixed fields followed
by the caller's arguments. -/
theorem logHTTPRequest_spec (method path : String) (statusCode durationNs : Int)
    (args : List (String × GoValue)) :
    logHTTPRequest method path statusCode durationNs args
      = [.emit
          (if statusCode < 400 then levelInfo
           else if statusCode < 500 then levelWarn else levelError)
          "HTTP request completed"
          ([("http_method", .str method),
            ("http_path", .str path),
            ("http_status_code", .int statusCode),
            ("duration_ms", .int64 (Int.tdiv durationNs 1000000))] ++ args)] := by
  simp only [logHTTPRequest]
  congr 1
  split_ifs <;> simp only [levelInfo, levelWarn, levelError] <;> omega

/-- The attribute-accumulating fold of `LogWithSpanAttributes` produces the
pairs unchanged as log args and their type-dispatched conversions as span
attributes, in order. -/
theorem logAttrs_foldl (attrs : List (String × GoValue))
    (acc1 : List (String × GoValue)) (acc2 : List (String × SpanAttrVal)) :
    attrs.foldl
      (fun (acc : List (String × GoValue) × List (String × SpanAttrVal)) kv =>
        (acc.1 ++ [kv], acc.2 ++ [toSpanAttr kv.1 kv.2]))
      (acc1, acc2)
      = (acc1 ++ attrs, acc2 ++ attrs.map fun kv => toSpanAttr kv.1 kv.2) := by
  induction attrs generalizing acc1 acc2 with
  | nil => simp
  | cons kv tl ih =>
    show tl.foldl _ (acc1 ++ [kv], acc2 ++ [toSpanAttr kv.1 kv.2]) = _
    rw [ih]
    simp

/-- C5: `LogWithSpanAttributes` emits one record at the given level
carrying every key/value pair as a log attribute, preceded — exactly when
the span is recording — by setting the same pairs, type-dispatched through
`toSpanAttr`, as span attributes. -/
theorem logWithSpanAttributes_spec (ctx : Ctx) (level : Int) (msg : String)
    (attrs : List (String × GoValue)) :
    logWithSpanAttributes ctx level msg attrs
      = (if (spanFromContext ctx).recording
          then [.spanSetAttributes (attrs.map fun kv => toSpanAttr kv.1 kv.2)]
          else [])
        ++ [.emit level msg attrs] := by
  simp only [logWithSpanAttributes, logAttrs_foldl, List.nil_append]

/-- C6: `RecordRequest` appends exactly one increment of 1 to the request
counter and exactly one histogram sample equal to the duration in seconds,
both under exactly `{method, endpoint, status_code}`, and leaves the error
counter untouched. -/
theorem recordRequest_spec (s : MetricsState) (method endpoint statusCode : String)
    (durationNs : Int) :
    (recordRequest s method endpoint statusCode durationNs).requestsTotal
      = s.requestsTotal
        ++ [([("method", method), ("endpoint", endpoint), ("status_code", statusCode)], 1)]
    ∧ (recordRequest s method endpoint statusCode durationNs).requestDuration
      = s.requestDuration
        ++ [([("method", method), ("endpoint", endpoint), ("status_code", statusCode)],
             durationSeconds durationNs)]
    ∧ (recordRequest s method endpoint statusCode durationNs).errorsTotal
      = s.errorsTotal :=
  ⟨rfl, rfl, rfl⟩

/-- The exact event trace of the `/soma` handler on a parse failure of
either parameter. -/
theorem somaHandler_parse_failure_trace (method : String) (pa pb : Option ℚ)
    (callResult : Except String DownResp) (h : pa = none ∨ pb = none) :
    somaHandler method pa pb callResult =
      [SomaEvent.requestCount method "/soma",
       SomaEvent.spanRecordError "parâmetros inválidos",
       SomaEvent.log levelError "parâmetros inválidos",
       SomaEvent.errorCount "invalid_parameters" "/soma",
       SomaEvent.durationRecord method "/soma" "400",
       SomaEvent.respond 400 "Parâmetros inválidos. Use /soma?a=1&b=2"] := by
  rcases h with h | h
  · subst h
    cases pb <;> rfl
  · subst h
    cases pa <;> rfl

/-- C7: on a parse failure of `a` or `b`, the `/soma` handler responds
400, makes no outbound call, increments the error counter exactly once
with `{invalid_parameters, /soma}`, and both the span error and the
error-level log happen before the response is written. -/
theorem soma_invalid_parameters_spec (method : String) (pa pb : Option ℚ)
    (callResult : Except String DownResp) (h : pa = none ∨ pb = none) :
    respondedWith (somaHandler method pa pb callResult)
      = some (400, "Parâmetros inválidos. Use /soma?a=1&b=2")
    ∧ doCallCount (somaHandler method pa pb callResult) = 0
    ∧ errorCounts (somaHandler method pa pb callResult)
      = [("invalid_parameters", "/soma")]
    ∧ ∃ pre post,
        somaHandler method pa pb callResult
          = pre ++ SomaEvent.respond 400 "Parâmetros inválidos. Use /soma?a=1&b=2" :: post
        ∧ SomaEvent.spanRecordError "parâmetros inválidos" ∈ pre
        ∧ SomaEvent.log levelError "parâmetros inválidos" ∈ pre := by
  rw [somaHandler_parse_failure_trace method pa pb callResult h]
  refine ⟨rfl, rfl, rfl,
    [SomaEvent.requestCount method "/soma",
     SomaEvent.spanRecordError "parâmetros inválidos",
     SomaEvent.log levelError "parâmetros inválidos",
     SomaEvent.errorCount "invalid_parameters" "/soma",
     SomaEvent.durationRecord method "/soma" "400"], [], rfl, ?_, ?_⟩ <;> simp

/-- Witness for C7 at `a` unparsable, `b = 4`. -/
theorem soma_invalid_parameters_spec_witness :
    ((none : Option ℚ) = none ∨ (some (4 : ℚ)) = none)
    ∧ respondedWith (somaHandler "GET" none (some 4) (.error "unused"))
        = some (400, "Parâmetros inválidos. Use /soma?a=1&b=2")
    ∧ doCallCount (somaHandler "GET" none (some 4) (.error "unused")) = 0
    ∧ errorCounts (somaHandler "GET" none (some 4) (.error "unused"))
        = [("invalid_parameters", "/soma")] := by
  have h := soma_invalid_parameters_spec "GET" none (some 4) (.error "unused") (Or.inl rfl)
  exact ⟨Or.inl rfl, h.1, h.2.1, h.2.2.1⟩

/-- C8: with valid parameters and a transport-level failure of the
downstream call, the `/soma` handler responds 500, increments the error
counter exactly once with `{external_service_error, /soma}`, and the error
is recorded on the span before the 500 response is written. -/
theorem soma_external_failure_spec (method : String) (a b : ℚ) (e : String) :
    respondedWith (somaHandler method (some a) (some b) (.error e))
      = some (500, "erro ao chamar serviço 2")
    ∧ errorCounts (somaHandler method (some a) (some b) (.error e))
      = [("external_service_error", "/soma")]
    ∧ ∃ pre post,
        somaHandler method (some a) (some b) (.error e)
          = pre ++ SomaEvent.respond 500 "erro ao chamar serviço 2" :: post
        ∧ SomaEvent.spanRecordError e ∈ pre := by
  refine ⟨rfl, rfl,
    [SomaEvent.requestCount method "/soma",
     SomaEvent.spanSetParams a b, SomaEvent.injectHeaders,
     SomaEvent.externalCallCount "calc-service" "/calc", SomaEvent.doCall,
     SomaEvent.spanRecordError e,
     SomaEvent.errorCount "external_service_error" "/soma",
     SomaEvent.durationRecord method "/soma" "500"],
    [SomaEvent.log levelError "erro ao chamar o serviço 2"], rfl, ?_⟩
  simp

/-- C9: whenever the downstream call returns a response — whatever its
status — the `/soma` handler responds 200 with the fixed prefix followed
by the downstream body, records the request-duration metric with status
`200`, and increments no error counter; in particular with a healthy
downstream returning `7` the body is `Resultado do serviço2: 7`. -/
theorem soma_success_spec (method : String) (a b : ℚ) (resp : DownResp) :
    respondedWith (somaHandler method (some a) (some b) (.ok resp))
      = some (200, "Resultado do serviço2: " ++ resp.body)
    ∧ SomaEvent.durationRecord method "/soma" "200"
        ∈ somaHandler method (some a) (some b) (.ok resp)
    ∧ errorCounts (somaHandler method (some a) (some b) (.ok resp)) = []
    ∧ respondedWith (somaHandler "GET" (some 3) (some 4) (.ok ⟨"200 OK", "7"⟩))
        = some (200, "Resultado do serviço2: 7") := by
  refine ⟨rfl, ?_, rfl, rfl⟩
  simp [somaHandler]

/-- The events of the `os.Setenv` fold are exactly one `setEnvVar` per
pair, appended in order. -/
theorem foldl_applySetEnv_events (l : List (String × String))
    (s : List (String × String) × List SetupEvent) :
    (l.foldl (fun t kv => applySetEnv t kv.1 kv.2) s).2
      = s.2 ++ l.map (fun kv => SetupEvent.setEnvVar kv.1 kv.2) := by
  induction l generalizing s with
  | nil => simp
  | cons kv tl ih =>
    show (tl.foldl _ (applySetEnv s kv.1 kv.2)).2 = _
    rw [ih]
    simp [applySetEnv]

/-- C10: `SetupWithConfig` reads the config file before publishing any
override: on a read failure it returns the error with the environment
untouched and no `Setenv` performed; on a successful read the trace is the
read, then exactly the override `Setenv` calls, then placeholder expansion
and the YAML parse. -/
theorem setupWithConfig_spec (config : GoConfig) (env : List (String × String)) :
    setupWithConfig config none env
      = (env, [SetupEvent.readFileFailed config.configPath], true)
    ∧ ∀ b, (setupWithConfig config (some b) env).2.1
        = SetupEvent.readFileOk config.configPath
          :: ((overridePairs config).map (fun kv => SetupEvent.setEnvVar kv.1 kv.2)
              ++ [SetupEvent.expandEnv, SetupEvent.parseYAML]) := by
  refine ⟨rfl, fun b => ?_⟩
  show ((overridePairs config).foldl (fun t kv => applySetEnv t kv.1 kv.2)
      (env, [SetupEvent.readFileOk config.configPath])).2
      ++ [SetupEvent.expandEnv, SetupEvent.parseYAML] = _
  rw [foldl_applySetEnv_events]
  simp

end OtelHelpers
